import Mathlib

/-!
Shallow embedding of the distributed-strategy subsystem of the
PyTorch Lightning repository, with theorems settling the specification
claims about it.  Python methods are translated into pure Lean
functions; process-level effects (killed pids, removed directories,
raised exceptions, emitted warnings) are returned as explicit values.
-/

/-! ## Definitions -/

/-! ### Cluster environment and world ranks
(`pytorch_lightning/strategies/ddp.py`, `DDPStrategy.set_world_ranks`) -/

/-- Modelled from the spec: the `ClusterEnvironment` class
(`plugins/environments`, not under the sources) stores topology facts;
`set_global_rank` and `set_world_size` are plain mutators and
`node_rank` / `local_rank` are read-only facts from the scheduler. -/
structure ClusterEnv where
  node_rank : Nat
  local_rank : Nat
  global_rank : Nat
  world_size : Nat
deriving Repr, DecidableEq

/-- Modelled from the spec: `ClusterEnvironment.set_global_rank`, a plain mutator. -/
def ClusterEnv.set_global_rank (e : ClusterEnv) (r : Nat) : ClusterEnv :=
  { e with global_rank := r }

/-- Modelled from the spec: `ClusterEnvironment.set_world_size`, a plain mutator. -/
def ClusterEnv.set_world_size (e : ClusterEnv) (n : Nat) : ClusterEnv :=
  { e with world_size := n }

/-- The part of the `DDPStrategy` state that `set_world_ranks` reads:
`_num_nodes`, `parallel_devices` (only its length matters) and the
optional cluster environment. -/
structure DDPWorldState where
  num_nodes : Nat
  parallel_devices : List Unit
  cluster_environment : Option ClusterEnv
deriving Repr, DecidableEq

/-- `DDPStrategy.num_processes`: `len(self.parallel_devices)` (0 when `None`;
we model a missing device list as the empty list). -/
def DDPWorldState.num_processes (s : DDPWorldState) : Nat :=
  s.parallel_devices.length

/-- `DDPStrategy.set_world_ranks` (ddp.py lines 187-192): early return when
the cluster environment is `None`; otherwise set the global rank to
`node_rank * num_processes + local_rank` and the world size to
`num_nodes * num_processes`.  (The trailing `rank_zero_only.rank`
assignment mutates a process-global logging gate and is not part of the
cluster-environment state.) -/
def set_world_ranks (s : DDPWorldState) : DDPWorldState :=
  match s.cluster_environment with
  | none => s
  | some e =>
      { s with
        cluster_environment :=
          some ((e.set_global_rank
                  (e.node_rank * s.num_processes + e.local_rank)).set_world_size
                  (s.num_nodes * s.num_processes)) }

/-! ### Deadlock-detection opt-in
(`ddp.py`, `DDPStrategy._should_run_deadlock_detection` and
`DDPStrategy._configure_launcher`) -/

/-- An environment-variable table. -/
def EnvVars : Type := String → Option String

/-- `os.getenv(key, default)`. -/
def osGetenv (env : EnvVars) (key default : String) : String :=
  (env key).getD default

/-- The `_rank_0_will_call_children_scripts` flag after
`DDPStrategy._configure_launcher` (ddp.py lines 135-138): it is
initialised to `False` and set to `True` exactly when the cluster
environment does not create processes externally. -/
def rank0WillCallChildrenScripts (creates_processes_externally : Bool) : Bool :=
  if !creates_processes_externally then true else false

/-- `DDPStrategy._should_run_deadlock_detection` (ddp.py lines 362-369):
`os.getenv("PL_RECONCILE_PROCESS", "0") == "1" or self._rank_0_will_call_children_scripts`. -/
def shouldRunDeadlockDetection (env : EnvVars) (rank_0_will_call_children_scripts : Bool) : Bool :=
  (osGetenv env "PL_RECONCILE_PROCESS" "0" == "1") || rank_0_will_call_children_scripts

/-! ### Process reconciliation on deadlock
(`ddp.py`, `DDPStrategy.reconciliate_processes`) -/

/-- How a call to `reconciliate_processes` ends: a plain return, a
warn-and-return (uninitialised sync dir), or a raised
`DeadlockDetectedException` carrying the original trace. -/
inductive ReconcileOutcome where
  | returned
  | warnedAndReturned
  | deadlockRaised (trace : String)
deriving Repr, DecidableEq

/-- The observable effects of one `reconciliate_processes` call. -/
structure ReconcileEffects where
  outcome : ReconcileOutcome
  killed_pids : List Nat
  sync_dir_removed : Bool
deriving Repr, DecidableEq

/-- The `DDPStrategy` state read by `reconciliate_processes`:
`world_size`, `num_nodes`, the result of `_should_run_deadlock_detection()`,
`_sync_dir`, the pid registry `_pids` and the calling process's own pid. -/
structure ReconcileState where
  world_size : Nat
  num_nodes : Nat
  deadlock_detection_enabled : Bool
  sync_dir : Option String
  pids : List Nat
  own_pid : Nat
deriving Repr, DecidableEq

/-- `DDPStrategy.reconciliate_processes` (ddp.py lines 394-427).
`dir_files_after_wait` is the `os.listdir(sync_dir)` result after the
rank wrote its own sentinel and slept the fixed interval (its contents
depend on the other processes, so it is an input of the model).  If the
file count equals `world_size // num_nodes` the call returns; otherwise
every pid of the registry other than the caller's own is killed with
SIGKILL, the sync dir is removed and a `DeadlockDetectedException`
carrying the trace is raised. -/
def reconciliateProcesses (st : ReconcileState) (dir_files_after_wait : List String)
    (trace : String) : ReconcileEffects :=
  if st.world_size < 2 then ⟨.returned, [], false⟩
  else if !st.deadlock_detection_enabled then ⟨.returned, [], false⟩
  else
    match st.sync_dir with
    | none => ⟨.warnedAndReturned, [], false⟩
    | some _ =>
        if dir_files_after_wait.length = st.world_size / st.num_nodes then
          ⟨.returned, [], false⟩
        else
          ⟨.deadlockRaised trace, st.pids.filter (fun p => p != st.own_pid), true⟩

/-! ### Tensors
A minimal tensor model shared by the collective operations: a shape
(list of dimension sizes) and a flat data buffer of rationals.  Device
placement is not tracked: the `.to(device)` moves in the sources do not
change shape or values. -/

structure STensor where
  dims : List Nat
  data : List ℚ
deriving Repr, DecidableEq

/-- `tensor.dim()`: the number of dimensions. -/
def STensor.dim (t : STensor) : Nat := t.dims.length

/-- `tensor.unsqueeze(0)`: prepend a dimension of size one. -/
def STensor.unsqueeze0 (t : STensor) : STensor := ⟨1 :: t.dims, t.data⟩

/-! ### Picklable Python objects and `torch.save` / `torch.load`
`torch.save` on a non-tensor object pickles it into a byte buffer and
`torch.load` unpickles it; both live in the external torch library, so
the model below is an executable serializer with the same contract
(an injective byte encoding of nested Python values with a decoder).
Nested structure is represented with pairs. -/

inductive PyObj where
  | pyNone : PyObj
  | pyInt : Int → PyObj
  | pyStr : List Nat → PyObj
  | pyPair : PyObj → PyObj → PyObj
deriving Repr, DecidableEq

/-- Model of `torch.save` into a fresh byte buffer: a tagged encoding of
the object. -/
def torchSave : PyObj → List Nat
  | .pyNone => [0]
  | .pyInt n => [1, if n < 0 then 1 else 0, n.natAbs]
  | .pyStr s => 2 :: s.length :: s
  | .pyPair a b => 3 :: (torchSave a ++ torchSave b)

/-- Model of `torch.load` from a byte buffer: decodes one object and
returns it with the remaining bytes; `none` models the unpickling error
on a corrupt buffer.  The fuel argument bounds the nesting depth. -/
def torchLoadAux : Nat → List Nat → Option (PyObj × List Nat)
  | _, 0 :: rest => some (.pyNone, rest)
  | _, 1 :: s :: m :: rest => some (.pyInt (if s = 1 then -(m : Int) else (m : Int)), rest)
  | _, 2 :: len :: rest =>
      if len ≤ rest.length then some (.pyStr (rest.take len), rest.drop len) else none
  | fuel + 1, 3 :: rest => do
      let (a, r1) ← torchLoadAux fuel rest
      let (b, r2) ← torchLoadAux fuel r1
      some (.pyPair a b, r2)
  | _, _ => none

/-- Nesting depth of a Python value (the fuel the decoder needs). -/
def pyDepth : PyObj → Nat
  | .pyPair a b => 1 + max (pyDepth a) (pyDepth b)
  | _ => 0

/-! ### The non-tensor broadcast path of `LightningDistributed`
(`pytorch_lightning/distributed/dist.py`).  `_encode` turns a string
(represented by its list of character code points) into a fixed
buffer of one hundred slots: the code points of the characters,
zero-padded at the end (`padding = torch.zeros(100); padding[:len] = chunks`).
`_decode` maps `chr` over every slot of the buffer and joins the result. -/

/-- `LightningDistributed._encode` (dist.py lines 27-34).  Accepted inputs
are strings of length between one and one hundred: `torch.stack` on an
empty chunk list and slice-assignment of more than one hundred chunks
both raise. -/
def lightningEncode (obj : List Nat) : List Nat :=
  obj ++ List.replicate (100 - obj.length) 0

/-- `LightningDistributed._decode` (dist.py lines 36-42): `chr` of every
slot of the buffer, joined back into a string (again represented by its
code points). -/
def lightningDecode (tensor : List Nat) : List Nat :=
  tensor.map (fun x => x)

/-! ### `XLAStrategy.broadcast`
(`src/lightning/pytorch/strategies/xla.py` lines 166-194).  A tensor
input is unsqueezed when zero-dimensional and broadcast directly; a
non-tensor input is saved into a byte buffer, wrapped in a float tensor,
broadcast, and loaded back.  `xm.collective_broadcast` hands every rank
the root rank's tensor.  The `bytearray -> float tensor -> .byte()`
conversion is exact on byte values, modelled by casting the byte values
into the rational data buffer and back. -/

inductive TBVal where
  | tensor : STensor → TBVal
  | obj : PyObj → TBVal
deriving Repr, DecidableEq

/-- Model of `.byte()` applied to one float-tensor entry that holds a
byte value (exact for values zero to two hundred fifty-five). -/
def floatEntryToByte (q : ℚ) : Nat := q.num.toNat

/-- The tensor a rank hands to `xm.collective_broadcast`: the (possibly
unsqueezed) tensor itself, or the byte buffer of the saved object as a
float tensor. -/
def xlaBroadcastPrepare (v : TBVal) : STensor :=
  match v with
  | .tensor t => if t.dims = [] then t.unsqueeze0 else t
  | .obj o => ⟨[(torchSave o).length], (torchSave o).map (fun b : Nat => (b : ℚ))⟩

/-- `XLAStrategy.broadcast` as seen by one rank: `mine` is the rank's own
argument (whose type decides the local `is_tensor` flag) and `src_val`
is the root rank's argument, whose prepared tensor the collective
delivers to every rank.  Returns `none` when the received buffer does
not unpickle (never on agreeing input kinds). -/
def xlaBroadcast (launched : Bool) (mine src_val : TBVal) : Option TBVal :=
  if !launched then some mine
  else
    let received := xlaBroadcastPrepare src_val
    match mine with
    | .tensor _ => some (.tensor received)
    | .obj _ =>
        let bytes := received.data.map floatEntryToByte
        match torchLoadAux bytes.length bytes with
        | some (o, _) => some (.obj o)
        | none => none

/-! ### Checkpoint saving
(`pytorch_lightning/plugins/checkpoint/torch.py`,
`TorchCheckpointIOPlugin.save_checkpoint`) -/

/-- A checkpoint value: whether pickling it succeeds, plus an
identifying payload. -/
structure CkptValue where
  picklable : Bool
  payload : Nat
deriving Repr, DecidableEq

/-- A checkpoint mapping, as an ordered key/value list. -/
abbrev Checkpoint : Type := List (String × CkptValue)

/-- Modelled from the spec: `atomic_save` (`utilities/cloud_io.py` of the
repository, not under the sources) serializes the mapping and atomically
moves it into place; serialization raises `AttributeError` when some
value cannot be pickled, and otherwise the whole mapping is written. -/
def atomic_save (checkpoint : Checkpoint) : Except String Checkpoint :=
  if checkpoint.all (fun kv => kv.2.picklable) then .ok checkpoint
  else .error "AttributeError"

/-- `LightningModule.CHECKPOINT_HYPER_PARAMS_KEY`, the fixed key popped by
the retry path. -/
def CHECKPOINT_HYPER_PARAMS_KEY : String := "hyper_parameters"

/-- `TorchCheckpointIOPlugin.save_checkpoint` (torch.py lines 25-35):
try `atomic_save`; on `AttributeError` pop the hyper-parameters key,
warn once, and retry `atomic_save` (whose failure propagates).  Returns
the save result (the mapping written, or the propagated error) together
with the number of warnings emitted. -/
def save_checkpoint (checkpoint : Checkpoint) : Except String Checkpoint × Nat :=
  match atomic_save checkpoint with
  | .ok saved => (.ok saved, 0)
  | .error _ =>
      let popped : Checkpoint :=
        checkpoint.filter (fun kv => kv.1 != CHECKPOINT_HYPER_PARAMS_KEY)
      (atomic_save popped, 1)

/-! ### Reduce operations and cross-rank sums -/

/-- The `torch.distributed.ReduceOp` values. -/
inductive TorchReduceOp where
  | SUM
  | AVG
  | PRODUCT
  | MIN
  | MAX
deriving Repr, DecidableEq

/-- A `reduce_op` argument: a `ReduceOp`, a string, or `None`. -/
inductive ReduceOpArg where
  | op : TorchReduceOp → ReduceOpArg
  | str : String → ReduceOpArg
  | noneArg : ReduceOpArg
deriving Repr, DecidableEq

/-- Elementwise tensor addition (shapes agree in every use below). -/
def STensor.add (t u : STensor) : STensor :=
  ⟨t.dims, t.data.zipWith (fun a b => a + b) u.data⟩

/-- Elementwise division of a tensor by the world size. -/
def STensor.divNat (t : STensor) (n : Nat) : STensor :=
  ⟨t.dims, t.data.map (fun x => x / (n : ℚ))⟩

/-- The cross-rank sum of this rank's tensor with the other ranks'
contributions (the Python `sum` of the gathered per-rank values, as in
`xm.mesh_reduce`, and the all-reduce sum of the torch backend). -/
def sumAcrossRanks (mine : STensor) (others : List STensor) : STensor :=
  others.foldl STensor.add mine

/-- An argument value of a strategy `reduce` / `broadcast`: a tensor or
one of several non-tensor Python values. -/
inductive XVal where
  | tensor : STensor → XVal
  | num : ℚ → XVal
  | str : String → XVal
  | pyNone : XVal
deriving Repr, DecidableEq

/-- Whether `isinstance(x, torch.Tensor)` holds. -/
def XVal.isTensor : XVal → Bool
  | .tensor _ => true
  | _ => false

/-- The Python `str.lower()` method, character-wise (the reduce-op names
are plain ASCII). -/
def pyLower (s : String) : String := ⟨s.data.map Char.toLower⟩

/-! ### `XLAStrategy.reduce`
(`src/lightning/pytorch/strategies/xla.py` lines 196-217).  A non-tensor
input is first converted with `torch.tensor(output, device=self.root_device)`;
`root_device` raises a RuntimeError before the processes have spawned
(xla.py lines 91-96), and `torch.tensor` itself raises a TypeError on a
non-numeric value.  Then the `reduce_op` is validated (a `ReduceOp`
other than SUM, or a string whose lower-case form is not sum/mean/avg,
raises a ValueError), the cross-rank sum is taken with
`xm.mesh_reduce(_, _, sum)`, and the result is divided by the world size
when the op is the string avg/mean. -/

/-- The RuntimeError message of `XLAStrategy.root_device` before launch. -/
def xlaRootDeviceError : String :=
  "Accessing the XLA device before processes have spawned is not allowed."

/-- The ValueError message of `XLAStrategy.reduce` on an unsupported op. -/
def xlaReduceOpError : String :=
  "Currently, the XLAStrategy only supports sum, mean, avg for the reduce operation"

/-- `XLAStrategy.reduce`.  `others` are the other ranks' contributions at
the `mesh_reduce` collective; the returned error, when any, never
depends on them (the raise happens before any communication). -/
def xlaReduce (launched : Bool) (world_size : Nat) (others : List STensor)
    (output : XVal) (reduce_op : ReduceOpArg) : Except String STensor :=
  match (match output with
         | .tensor t => Except.ok t
         | .num x =>
             if !launched then Except.error xlaRootDeviceError
             else Except.ok ⟨[], [x]⟩
         | _ =>
             if !launched then Except.error xlaRootDeviceError
             else Except.error "TypeError: could not infer dtype") with
  | .error e => .error e
  | .ok t =>
      let invalid_reduce_op : Bool :=
        match reduce_op with
        | .op o => o != TorchReduceOp.SUM
        | _ => false
      let invalid_reduce_op_str : Bool :=
        match reduce_op with
        | .str s => !(["sum", "mean", "avg"].contains (pyLower s))
        | _ => false
      if invalid_reduce_op || invalid_reduce_op_str then .error xlaReduceOpError
      else
        let reduced := sumAcrossRanks t others
        if (match reduce_op with
            | .str s => ["avg", "mean"].contains (pyLower s)
            | _ => false) then
          .ok (reduced.divNat world_size)
        else .ok reduced

/-! ### `DDPStrategy` collectives
(`ddp.py` lines 283-321) and the XLA barrier / all-gather
(`xla.py` lines 155-164 and 267-291). -/

/-- What a barrier call did. -/
inductive BarrierEffect where
  | noop
  | performedBarrier
deriving Repr, DecidableEq

/-- `DDPStrategy.barrier` (ddp.py lines 283-289): returns immediately when
`distributed_available()` is false, otherwise performs the torch
barrier.  (`distributed_available` is modelled from the spec: it is the
"not yet launched" check, true exactly when the default process group
exists.) -/
def ddpBarrier (available : Bool) : BarrierEffect :=
  if !available then .noop else .performedBarrier

/-- Model of `torch.distributed.broadcast_object_list` (external torch):
raises a RuntimeError when the default process group has not been
initialized, and otherwise overwrites every rank's slot with the source
rank's object. -/
def torchBroadcastObjectList (initialized : Bool) (local_slot src_obj : PyObj) :
    Except String PyObj :=
  if !initialized then .error "Default process group has not been initialized"
  else
    match local_slot with
    | _ => .ok src_obj

/-- `DDPStrategy.broadcast` (ddp.py lines 291-296): wraps the object in a
one-slot list, blanks the slot on non-source ranks, and calls
`torch.distributed.broadcast_object_list` unconditionally (there is no
unlaunched-state guard). -/
def ddpBroadcast (initialized : Bool) (global_rank src : Nat) (mine src_obj : PyObj) :
    Except String PyObj :=
  torchBroadcastObjectList initialized
    (if global_rank != src then PyObj.pyNone else mine) src_obj

/-- Modelled from the spec: `sync_ddp_if_available`
(`utilities/distributed.py` of the repository, not under the sources):
a collective call before the process group exists degrades to a
pass-through, and otherwise the tensor is all-reduced across ranks with
sum, divided by the world size for the default mean/avg op. -/
def syncDdpIfAvailable (available : Bool) (world_size : Nat) (others : List STensor)
    (t : STensor) (reduce_op : ReduceOpArg) : STensor :=
  if !available then t
  else
    let reduced := sumAcrossRanks t others
    match reduce_op with
    | .str s => if ["mean", "avg"].contains (pyLower s) then reduced.divNat world_size else reduced
    | .op TorchReduceOp.AVG => reduced.divNat world_size
    | _ => reduced

/-- `DDPStrategy.reduce` (ddp.py lines 307-321): tensors are handed to
`sync_ddp_if_available`; any other input is returned unchanged. -/
def ddpReduce (available : Bool) (world_size : Nat) (others : List STensor)
    (tensor : XVal) (reduce_op : ReduceOpArg) : XVal :=
  match tensor with
  | .tensor t => .tensor (syncDdpIfAvailable available world_size others t reduce_op)
  | x => x

/-- What an `xm.rendezvous` barrier call did. -/
inductive XlaBarrierEffect where
  | noop
  | rendezvous (tag : String)
deriving Repr, DecidableEq

/-- `XLAStrategy.barrier` (xla.py lines 155-164): a no-op before launch;
otherwise `xm.rendezvous` on the given name, with `None` replaced by the
empty tag. -/
def xlaBarrier (launched : Bool) (name : Option String) : XlaBarrierEffect :=
  if !launched then .noop else .rendezvous (name.getD "")

/-- Model of `xm.all_gather` (torch_xla): concatenates the per-rank
tensors along dimension zero. -/
def xmAllGather (contribs : List STensor) : STensor :=
  ⟨(contribs.map (fun t => t.dims.headD 0)).sum
      :: ((contribs.head?.map (fun t => t.dims.tail)).getD []),
    (contribs.map STensor.data).flatten⟩

/-- `XLAStrategy.all_gather` (xla.py lines 267-291) as the collective
result: each rank returns its input unchanged before launch; otherwise
every rank unsqueezes its zero-dimensional tensor and the prepared
tensors are gathered along dimension zero.  `contribs` are all ranks'
inputs and `mine` this rank's own. -/
def xlaAllGather (launched : Bool) (contribs : List STensor) (mine : STensor) : STensor :=
  if !launched then mine
  else xmAllGather (contribs.map (fun t => if t.dims = [] then t.unsqueeze0 else t))

/-! ### Gradient clipping
(`pytorch_lightning/trainer/training_tricks.py`,
`TrainerTrainingTricksMixin.clip_gradients`, lines 22-46).  The
parameters are represented by their gradient vectors (already filtered
to those with a gradient); `norm_type` is the fixed value two. -/

/-- `p.grad.data.norm(2) ** 2`: the sum of squared entries. -/
noncomputable def gradNormSq (g : List ℝ) : ℝ := (g.map (fun x => x ^ 2)).sum

/-- The value of the `param_norm` variable after the loop
`for p in parameters: param_norm = p.grad.data.norm(norm_type) ** norm_type`
(the loop keeps overwriting it, so only the last parameter's value
survives). -/
noncomputable def clipLoopParamNorm (params : List (List ℝ)) : ℝ :=
  params.foldl (fun _ p => gradNormSq p) 0

/-- The `total_norm` computed by `clip_gradients`: `torch.zeros([])`,
then one single `total_norm.add_(param_norm)` placed after the loop,
then `** (1. / norm_type)` (the square root, as the accumulator is a sum
of squares and hence nonnegative). -/
noncomputable def clipTotalNorm (params : List (List ℝ)) : ℝ :=
  Real.sqrt (0 + clipLoopParamNorm params)

/-- The total norm the surrounding documentation intends
(`torch.nn.utils.clip_grad_norm_`): the root of the sum over all
parameters of `norm ** norm_type`. -/
noncomputable def intendedTotalNorm (params : List (List ℝ)) : ℝ :=
  Real.sqrt ((params.map gradNormSq).sum)

/-- `clip_gradients` for `gradient_clip_val > 0` and finite `norm_type`:
returns the computed total norm and the rescaled gradients
(`p.grad.data.mul_(torch.where(clip_coef < 1, clip_coef, 1))` with
`clip_coef = max_norm / (total_norm + 1e-6)`). -/
noncomputable def clip_gradients (max_norm : ℝ) (params : List (List ℝ)) :
    ℝ × List (List ℝ) :=
  let total_norm := clipTotalNorm params
  let clip_coef := max_norm / (total_norm + 1 / 1000000)
  (total_norm,
    params.map (fun g => g.map (fun x => x * (if clip_coef < 1 then clip_coef else 1))))

/-! ## Theorems -/

/-- Decoding is a left inverse of encoding, for any fuel at least the
nesting depth and any trailing bytes. -/
theorem torchLoadAux_torchSave (x : PyObj) :
    ∀ (fuel : Nat) (rest : List Nat), pyDepth x ≤ fuel →
      torchLoadAux fuel (torchSave x ++ rest) = some (x, rest) := by
  induction x with
  | pyNone =>
      intro fuel rest _
      cases fuel <;> simp [torchSave, torchLoadAux]
  | pyInt n =>
      intro fuel rest _
      have hval : (if n < 0 then -|n| else |n|) = n := by
        rcases lt_or_le n 0 with h | h
        · simp [h, abs_of_neg h]
        · simp [not_lt.mpr h, abs_of_nonneg h]
      cases fuel <;> simp [torchSave, torchLoadAux, hval]
  | pyStr s =>
      intro fuel rest _
      cases fuel <;>
        simp [torchSave, torchLoadAux, List.take_left, List.drop_left]
  | pyPair a b iha ihb =>
      intro fuel rest h
      cases fuel with
      | zero => simp [pyDepth] at h
      | succ f =>
          have ha : pyDepth a ≤ f := by simp [pyDepth] at h; omega
          have hb : pyDepth b ≤ f := by simp [pyDepth] at h; omega
          calc torchLoadAux (f + 1) (torchSave (PyObj.pyPair a b) ++ rest)
              = torchLoadAux (f + 1) (3 :: (torchSave a ++ (torchSave b ++ rest))) := by
                simp [torchSave, List.append_assoc]
            _ = some (PyObj.pyPair a b, rest) := by
                simp [torchLoadAux, iha f _ ha, ihb f _ hb]

/-- The nesting depth of a value is bounded by the length of its byte
encoding, so the byte count is always sufficient decoder fuel. -/
theorem pyDepth_le_torchSave_length (x : PyObj) : pyDepth x ≤ (torchSave x).length := by
  induction x with
  | pyNone => simp [pyDepth, torchSave]
  | pyInt n => simp [pyDepth, torchSave]
  | pyStr s => simp [pyDepth, torchSave]
  | pyPair a b iha ihb =>
      have ha : 1 ≤ (torchSave a).length := by cases a <;> simp [torchSave]
      simp only [pyDepth, torchSave, List.length_cons, List.length_append]
      omega

/-- Reading a byte value back out of a float-tensor slot is exact. -/
theorem floatEntryToByte_natCast (b : Nat) : floatEntryToByte (b : ℚ) = b := by
  simp [floatEntryToByte]

/-- Casting a byte buffer into a float tensor and reading it back with
`.byte()` is the identity. -/
theorem floatBuffer_roundtrip (l : List Nat) :
    (l.map (fun b : Nat => (b : ℚ))).map floatEntryToByte = l := by
  induction l with
  | nil => rfl
  | cons x xs ih => simp [floatEntryToByte_natCast, ih]

/-- C2 counterexample: `_decode(_encode("a"))` is not `"a"` (the decode of
the one-character string, code point ninety-seven, keeps the ninety-nine
zero-padding slots). -/
theorem c2_encode_decode_not_id :
    lightningDecode (lightningEncode [97]) ≠ [97] := by decide

/-- C2 (amended): `LightningDistributed._decode` after `_encode` returns
the input string followed by NUL code points padding it to one hundred
characters (exact round-trip only at length exactly one hundred); the
`XLAStrategy` save-to-byte-tensor/broadcast/load path does return an
object deep-equal to the source rank's input, and its tensor path
returns the source tensor, unsqueezed when zero-dimensional. -/
theorem c2_broadcast_roundtrip_amended :
    (∀ x : List Nat, 1 ≤ x.length → x.length ≤ 100 →
        lightningDecode (lightningEncode x) = x ++ List.replicate (100 - x.length) 0) ∧
    (∀ mine o : PyObj, xlaBroadcast true (.obj mine) (.obj o) = some (.obj o)) ∧
    (∀ (mineT t : STensor), t.dims ≠ [] →
        xlaBroadcast true (.tensor mineT) (.tensor t) = some (.tensor t)) ∧
    (∀ (mineT t : STensor), t.dims = [] →
        xlaBroadcast true (.tensor mineT) (.tensor t) = some (.tensor t.unsqueeze0)) := by
  refine ⟨?_, ?_, ?_, ?_⟩
  · intro x _ _
    simp [lightningDecode, lightningEncode]
  · intro mine o
    have hload : torchLoadAux ((torchSave o).map (fun b : Nat => (b : ℚ))
          |>.map floatEntryToByte).length
        (((torchSave o).map (fun b : Nat => (b : ℚ))).map floatEntryToByte) = some (o, []) := by
      rw [floatBuffer_roundtrip]
      have := torchLoadAux_torchSave o (torchSave o).length []
        (pyDepth_le_torchSave_length o)
      simpa using this
    simp only [xlaBroadcast, xlaBroadcastPrepare, Bool.not_true, Bool.false_eq_true,
      if_false]
    rw [hload]
  · intro mineT t h
    simp [xlaBroadcast, xlaBroadcastPrepare, h]
  · intro mineT t h
    simp [xlaBroadcast, xlaBroadcastPrepare, h]

/-- Witness for the amended C2 at concrete inputs: the one-character
string, a nested pair object, and a zero-dimensional tensor. -/
theorem c2_broadcast_roundtrip_amended_witness :
    lightningDecode (lightningEncode [97]) = [97] ++ List.replicate 99 0 ∧
    xlaBroadcast true (.obj .pyNone)
        (.obj (.pyPair (.pyInt (-5)) (.pyStr [104, 105])))
      = some (.obj (.pyPair (.pyInt (-5)) (.pyStr [104, 105]))) ∧
    xlaBroadcast true (.tensor ⟨[], [3]⟩) (.tensor ⟨[], [7]⟩)
      = some (.tensor (STensor.mk [] [7]).unsqueeze0) :=
  ⟨c2_broadcast_roundtrip_amended.1 [97] (by decide) (by decide),
    c2_broadcast_roundtrip_amended.2.1 PyObj.pyNone
      (PyObj.pyPair (PyObj.pyInt (-5)) (PyObj.pyStr [104, 105])),
    c2_broadcast_roundtrip_amended.2.2.2 ⟨[], [3]⟩ ⟨[], [7]⟩ rfl⟩

/-- C1: for every `DDPStrategy` with a non-`None` cluster environment and a
valid configuration (`num_nodes >= 1`, `num_processes >= 1`,
`0 <= local_rank < num_processes`), after `set_world_ranks()` the cluster
environment's global rank equals `node_rank * num_processes + local_rank`
and its world size equals `num_nodes * num_processes`. -/
theorem c1_set_world_ranks_correct (s : DDPWorldState) (e : ClusterEnv)
    (henv : s.cluster_environment = some e)
    (hnodes : 1 ≤ s.num_nodes) (hprocs : 1 ≤ s.num_processes)
    (hlocal : e.local_rank < s.num_processes) :
    ∃ e2 : ClusterEnv, (set_world_ranks s).cluster_environment = some e2 ∧
      e2.global_rank = e.node_rank * s.num_processes + e.local_rank ∧
      e2.world_size = s.num_nodes * s.num_processes := by
  refine ⟨(e.set_global_rank
      (e.node_rank * s.num_processes + e.local_rank)).set_world_size
      (s.num_nodes * s.num_processes), ?_, rfl, rfl⟩
  simp [set_world_ranks, henv]

/-- Witness for C1 at a concrete configuration: one node, two devices,
node rank 0, local rank 1. -/
theorem c1_set_world_ranks_correct_witness :
    (DDPWorldState.mk 1 [(), ()] (some (ClusterEnv.mk 0 1 0 0))).cluster_environment
        = some (ClusterEnv.mk 0 1 0 0) ∧
      1 ≤ (DDPWorldState.mk 1 [(), ()] (some (ClusterEnv.mk 0 1 0 0))).num_nodes ∧
      1 ≤ (DDPWorldState.mk 1 [(), ()] (some (ClusterEnv.mk 0 1 0 0))).num_processes ∧
      (ClusterEnv.mk 0 1 0 0).local_rank
        < (DDPWorldState.mk 1 [(), ()] (some (ClusterEnv.mk 0 1 0 0))).num_processes ∧
      (∃ e2 : ClusterEnv,
        (set_world_ranks (DDPWorldState.mk 1 [(), ()] (some (ClusterEnv.mk 0 1 0 0)))).cluster_environment
          = some e2 ∧
        e2.global_rank = (ClusterEnv.mk 0 1 0 0).node_rank
            * (DDPWorldState.mk 1 [(), ()] (some (ClusterEnv.mk 0 1 0 0))).num_processes
            + (ClusterEnv.mk 0 1 0 0).local_rank ∧
        e2.world_size = (DDPWorldState.mk 1 [(), ()] (some (ClusterEnv.mk 0 1 0 0))).num_nodes
            * (DDPWorldState.mk 1 [(), ()] (some (ClusterEnv.mk 0 1 0 0))).num_processes) :=
  ⟨rfl, by decide, by decide, by decide,
    c1_set_world_ranks_correct (DDPWorldState.mk 1 [(), ()] (some (ClusterEnv.mk 0 1 0 0)))
      (ClusterEnv.mk 0 1 0 0) rfl (by decide) (by decide) (by decide)⟩

/-- C9: `_should_run_deadlock_detection()` returns true if and only if the
environment variable `PL_RECONCILE_PROCESS` is the string `"1"`, or the
launcher owns the child-process lifecycle (the cluster environment does
not create processes externally). -/
theorem c9_deadlock_detection_iff (env : EnvVars) (creates_processes_externally : Bool) :
    shouldRunDeadlockDetection env (rank0WillCallChildrenScripts creates_processes_externally) = true
      ↔ env "PL_RECONCILE_PROCESS" = some "1" ∨ creates_processes_externally = false := by
  cases h : env "PL_RECONCILE_PROCESS" with
  | none =>
      cases creates_processes_externally <;>
        simp [shouldRunDeadlockDetection, rank0WillCallChildrenScripts, osGetenv, h]
  | some v =>
      cases creates_processes_externally <;>
        simp [shouldRunDeadlockDetection, rank0WillCallChildrenScripts, osGetenv, h,
          beq_iff_eq]

/-- C3: on a strategy state with `world_size >= 2`, deadlock detection
enabled and a sync directory set, `reconciliate_processes` either: finds
the expected `world_size // num_nodes` sentinel count and returns with no
kills and no directory removal; or, on any other count, kills every
registered pid other than its own, removes the sync directory and raises
a `DeadlockDetectedException` carrying the original trace. -/
theorem c3_reconciliate_processes_cases (st : ReconcileState)
    (dir_files : List String) (trace : String) (d : String)
    (hws : 2 ≤ st.world_size) (hdet : st.deadlock_detection_enabled = true)
    (hdir : st.sync_dir = some d) :
    (dir_files.length = st.world_size / st.num_nodes →
        reconciliateProcesses st dir_files trace = ⟨.returned, [], false⟩) ∧
    (dir_files.length ≠ st.world_size / st.num_nodes →
        reconciliateProcesses st dir_files trace =
          ⟨.deadlockRaised trace, st.pids.filter (fun p => p != st.own_pid), true⟩) := by
  constructor <;> intro hcount <;>
    simp [reconciliateProcesses, Nat.not_lt_of_le hws, Nat.not_lt, hdet, hdir, hcount]

/-- Witness for C3 at a concrete state: world size 2, one node, detection
enabled, sync dir set, two registered pids; one sentinel file present
where two were expected (deadlock branch), and two present (clean branch). -/
theorem c3_reconciliate_processes_cases_witness :
    2 ≤ (ReconcileState.mk 2 1 true (some "d") [10, 20] 10).world_size ∧
      (ReconcileState.mk 2 1 true (some "d") [10, 20] 10).deadlock_detection_enabled = true ∧
      (ReconcileState.mk 2 1 true (some "d") [10, 20] 10).sync_dir = some "d" ∧
      (["0.pl"].length = (ReconcileState.mk 2 1 true (some "d") [10, 20] 10).world_size
            / (ReconcileState.mk 2 1 true (some "d") [10, 20] 10).num_nodes →
          reconciliateProcesses (ReconcileState.mk 2 1 true (some "d") [10, 20] 10) ["0.pl"] "tr"
            = ⟨.returned, [], false⟩) ∧
      (["0.pl"].length ≠ (ReconcileState.mk 2 1 true (some "d") [10, 20] 10).world_size
            / (ReconcileState.mk 2 1 true (some "d") [10, 20] 10).num_nodes →
          reconciliateProcesses (ReconcileState.mk 2 1 true (some "d") [10, 20] 10) ["0.pl"] "tr"
            = ⟨.deadlockRaised "tr",
                (ReconcileState.mk 2 1 true (some "d") [10, 20] 10).pids.filter
                  (fun p => p != (ReconcileState.mk 2 1 true (some "d") [10, 20] 10).own_pid),
                true⟩) :=
  ⟨by decide, rfl, rfl,
    (c3_reconciliate_processes_cases (ReconcileState.mk 2 1 true (some "d") [10, 20] 10)
      ["0.pl"] "tr" "d" (by decide) rfl rfl).1,
    (c3_reconciliate_processes_cases (ReconcileState.mk 2 1 true (some "d") [10, 20] 10)
      ["0.pl"] "tr" "d" (by decide) rfl rfl).2⟩

/-- C4 counterexample: a checkpoint whose single unpicklable value sits
under a key other than the hyper-parameters key does not save at all
(the claim says every such save succeeds): the retry pops the fixed
`CHECKPOINT_HYPER_PARAMS_KEY` rather than the offending key, and the
second `atomic_save` raises again. -/
theorem c4_save_checkpoint_counterexample :
    (save_checkpoint [("foo", ⟨false, 0⟩)]).1 = Except.error "AttributeError" := by
  rfl

/-- C4 (amended): a checkpoint with no unpicklable value is saved with all
its keys and no warning; a checkpoint whose unpicklable values all sit
under the hyper-parameters key (in particular, exactly one unpicklable
value stored there) is saved with exactly that key dropped and exactly
one warning; any other unpicklable value makes both save attempts fail. -/
theorem c4_save_checkpoint_amended (c : Checkpoint) :
    ((∀ kv ∈ c, kv.2.picklable = true) → save_checkpoint c = (.ok c, 0)) ∧
    ((∀ kv ∈ c, kv.2.picklable = false → kv.1 = CHECKPOINT_HYPER_PARAMS_KEY) →
      (∃ kv ∈ c, kv.2.picklable = false) →
        save_checkpoint c =
          (.ok (c.filter (fun kv => kv.1 != CHECKPOINT_HYPER_PARAMS_KEY)), 1)) := by
  constructor
  · intro h
    have hall : c.all (fun kv => kv.2.picklable) = true := by
      rw [List.all_eq_true]
      intro kv hkv
      exact h kv hkv
    simp [save_checkpoint, atomic_save, hall]
  · intro honly hex
    have hall : c.all (fun kv => kv.2.picklable) = false := by
      obtain ⟨kv, hkv, hbad⟩ := hex
      rcases hfl : c.all (fun kv => kv.2.picklable) with _ | _
      · rfl
      · rw [List.all_eq_true] at hfl
        rw [hfl kv hkv] at hbad
        cases hbad
    have hfiltered :
        (c.filter (fun kv => kv.1 != CHECKPOINT_HYPER_PARAMS_KEY)).all
          (fun kv => kv.2.picklable) = true := by
      rw [List.all_eq_true]
      intro kv hkv
      rw [List.mem_filter] at hkv
      obtain ⟨hmem, hne⟩ := hkv
      rcases hp : kv.2.picklable with _ | _
      · exact absurd (honly kv hmem hp) (by simpa using hne)
      · rfl
    simp [save_checkpoint, atomic_save, hall, hfiltered]

/-- Witness for the amended C4: a fully picklable checkpoint saves whole
with no warning, and a checkpoint whose one unpicklable value sits under
the hyper-parameters key saves with that key dropped and one warning. -/
theorem c4_save_checkpoint_amended_witness :
    (∀ kv ∈ ([("weights", ⟨true, 1⟩)] : Checkpoint), kv.2.picklable = true) ∧
    save_checkpoint [("weights", ⟨true, 1⟩)] = (.ok [("weights", ⟨true, 1⟩)], 0) ∧
    (∀ kv ∈ ([(CHECKPOINT_HYPER_PARAMS_KEY, ⟨false, 0⟩), ("weights", ⟨true, 1⟩)] : Checkpoint),
        kv.2.picklable = false → kv.1 = CHECKPOINT_HYPER_PARAMS_KEY) ∧
    (∃ kv ∈ ([(CHECKPOINT_HYPER_PARAMS_KEY, ⟨false, 0⟩), ("weights", ⟨true, 1⟩)] : Checkpoint),
        kv.2.picklable = false) ∧
    save_checkpoint [(CHECKPOINT_HYPER_PARAMS_KEY, ⟨false, 0⟩), ("weights", ⟨true, 1⟩)] =
      (.ok ([(CHECKPOINT_HYPER_PARAMS_KEY, ⟨false, 0⟩), ("weights", ⟨true, 1⟩)].filter
          (fun kv => kv.1 != CHECKPOINT_HYPER_PARAMS_KEY)), 1) :=
  ⟨by decide,
    (c4_save_checkpoint_amended [("weights", ⟨true, 1⟩)]).1 (by decide),
    by decide,
    by decide,
    (c4_save_checkpoint_amended
        [(CHECKPOINT_HYPER_PARAMS_KEY, ⟨false, 0⟩), ("weights", ⟨true, 1⟩)]).2
      (by decide) (by decide)⟩

/-- C5 counterexample: a collective called in the unlaunched state that is
not a pass-through: `XLAStrategy.reduce` on the non-tensor input `3`
raises the `root_device` RuntimeError before launch instead of returning
its input. -/
theorem c5_unlaunched_reduce_raises :
    xlaReduce false 2 [] (XVal.num 3) ReduceOpArg.noneArg = Except.error xlaRootDeviceError := by
  rfl

/-- C5 (amended): in the unlaunched state, `XLAStrategy`'s barrier,
broadcast and all-gather and `DDPStrategy`'s barrier and reduce are
pass-through no-ops; but `XLAStrategy.reduce` raises a RuntimeError on a
non-tensor input before launch (the `root_device` access), and
`DDPStrategy.broadcast` performs the torch collective unconditionally,
which raises when the default process group is not initialized. -/
theorem c5_unlaunched_passthrough_amended :
    (∀ name : Option String, xlaBarrier false name = .noop) ∧
    (∀ mine src_val : TBVal, xlaBroadcast false mine src_val = some mine) ∧
    (∀ (contribs : List STensor) (mine : STensor), xlaAllGather false contribs mine = mine) ∧
    ddpBarrier false = .noop ∧
    (∀ (ws : Nat) (others : List STensor) (v : XVal) (op : ReduceOpArg),
        ddpReduce false ws others v op = v) ∧
    (∀ (ws : Nat) (others : List STensor) (x : ℚ) (op : ReduceOpArg),
        xlaReduce false ws others (XVal.num x) op = Except.error xlaRootDeviceError) ∧
    (∀ (g src : Nat) (mine src_obj : PyObj),
        ddpBroadcast false g src mine src_obj =
          Except.error "Default process group has not been initialized") := by
  refine ⟨fun name => rfl, fun mine src_val => rfl, fun contribs mine => rfl, rfl, ?_, ?_, ?_⟩
  · intro ws others v op
    cases v <;> simp [ddpReduce, syncDdpIfAvailable]
  · intro ws others x op
    rfl
  · intro g src mine src_obj
    rfl

/-- Flattening singleton lists is a map. -/
theorem flatten_map_singleton {α β : Type} (f : α → β) (l : List α) :
    (l.map (fun x => [f x])).flatten = l.map f := by
  induction l with
  | nil => rfl
  | cons x xs ih => simp [ih]

/-- Summing the constant one over a list counts its length. -/
theorem sum_map_const_one {α : Type} (l : List α) :
    (l.map (fun _ => (1 : Nat))).sum = l.length := by
  induction l with
  | nil => rfl
  | cons x xs ih => simp [ih, Nat.add_comm]

/-- C6: with `N` ranks each contributing the zero-dimensional tensor
holding its own rank index, `XLAStrategy.all_gather` unsqueezes each
contribution to one dimension and returns, on every rank, the stacked
tensor of shape `(N,)` with data `[0, 1, ..., N-1]`. -/
theorem c6_all_gather_zero_dim (N : Nat) (hN : 1 ≤ N) (mine : STensor) :
    xlaAllGather true
        ((List.range N).map (fun r : Nat => (⟨[], [(r : ℚ)]⟩ : STensor))) mine
      = ⟨[N], (List.range N).map (fun r : Nat => (r : ℚ))⟩ := by
  obtain ⟨m, rfl⟩ : ∃ m, N = m + 1 := ⟨N - 1, by omega⟩
  have hprep :
      ((List.range (m + 1)).map (fun r : Nat => (⟨[], [(r : ℚ)]⟩ : STensor))).map
          (fun t => if t.dims = [] then t.unsqueeze0 else t)
        = (List.range (m + 1)).map (fun r : Nat => (⟨[1], [(r : ℚ)]⟩ : STensor)) := by
    rw [List.map_map]
    rfl
  rw [xlaAllGather]
  simp only [Bool.not_true, Bool.false_eq_true, if_false, hprep]
  rw [xmAllGather]
  have hdims :
      (((List.range (m + 1)).map (fun r : Nat => (⟨[1], [(r : ℚ)]⟩ : STensor))).map
        (fun t => t.dims.headD 0)).sum = m + 1 := by
    rw [List.map_map]
    have hfun : ((fun t : STensor => t.dims.headD 0)
          ∘ fun r : Nat => (⟨[1], [(r : ℚ)]⟩ : STensor))
        = fun _ : Nat => (1 : Nat) := rfl
    rw [hfun, sum_map_const_one, List.length_range]
  have hhead :
      ((List.range (m + 1)).map (fun r : Nat => (⟨[1], [(r : ℚ)]⟩ : STensor))).head?
        = some ⟨[1], [(0 : ℚ)]⟩ := by
    rw [List.range_succ_eq_map]
    rfl
  have hdata :
      (((List.range (m + 1)).map (fun r : Nat => (⟨[1], [(r : ℚ)]⟩ : STensor))).map
        STensor.data).flatten = (List.range (m + 1)).map (fun r : Nat => (r : ℚ)) := by
    rw [List.map_map]
    have hfun : (STensor.data ∘ fun r : Nat => (⟨[1], [(r : ℚ)]⟩ : STensor))
        = fun r : Nat => [(r : ℚ)] := rfl
    rw [hfun, flatten_map_singleton]
  rw [hdims, hhead, hdata]
  rfl

/-- Witness for C6 with three ranks: the gathered tensor is `[0, 1, 2]`
of shape `(3,)`. -/
theorem c6_all_gather_zero_dim_witness :
    1 ≤ 3 ∧
      xlaAllGather true
          ((List.range 3).map (fun r : Nat => (⟨[], [(r : ℚ)]⟩ : STensor))) ⟨[], [0]⟩
        = ⟨[3], (List.range 3).map (fun r : Nat => (r : ℚ))⟩ :=
  ⟨by decide, c6_all_gather_zero_dim 3 (by decide) ⟨[], [0]⟩⟩

/-- A fold whose body overwrites the accumulator keeps only the last
element's value. -/
theorem foldl_overwrite {α β : Type} (f : α → β) (x : α) (xs : List α) :
    ∀ a : β, (x :: xs).foldl (fun _ p => f p) a = f ((x :: xs).getLast (by simp)) := by
  induction xs generalizing x with
  | nil =>
      intro a
      simp [List.getLast]
  | cons y ys ih =>
      intro a
      rw [List.foldl_cons]
      rw [ih y (f x)]
      conv_rhs => rw [List.getLast_cons (show y :: ys ≠ [] by simp)]

/-- The value the overwriting loop leaves behind is the last parameter's. -/
theorem clipLoopParamNorm_eq_getLast (params : List (List ℝ)) (h : params ≠ []) :
    clipLoopParamNorm params = gradNormSq (params.getLast h) := by
  match params, h with
  | x :: xs, _ => exact foldl_overwrite gradNormSq x xs 0

/-- A square root of sixteen. -/
theorem sqrt_sixteen : Real.sqrt 16 = 4 := by
  rw [show (16 : ℝ) = 4 ^ 2 by norm_num, Real.sqrt_sq (by norm_num : (0 : ℝ) ≤ 4)]

/-- A square root of twenty-five. -/
theorem sqrt_twentyfive : Real.sqrt 25 = 5 := by
  rw [show (25 : ℝ) = 5 ^ 2 by norm_num, Real.sqrt_sq (by norm_num : (0 : ℝ) ≤ 5)]

/-- C7: with a positive clip value, the finite norm type two, and a
nonempty list of gradient-bearing parameters, the `total_norm` computed
by `clip_gradients` incorporates only the last parameter's norm (the
accumulation statement sits outside the loop body), every gradient entry
is scaled by `min(1, max_norm / (total_norm + 1e-6))`, and the computed
total norm differs from the documented intent (the root of the sum over
all parameters) at the concrete input `[[3, 0], [4, 0]]`. -/
theorem c7_clip_gradients_last_param_only (max_norm : ℝ) (hm : 0 < max_norm)
    (params : List (List ℝ)) (h : params ≠ []) :
    (clip_gradients max_norm params).1 = Real.sqrt (gradNormSq (params.getLast h)) ∧
    (clip_gradients max_norm params).2 =
      params.map (fun g => g.map (fun x =>
        x * min 1 (max_norm / (Real.sqrt (gradNormSq (params.getLast h)) + 1 / 1000000)))) ∧
    clipTotalNorm [[3, 0], [4, 0]] ≠ intendedTotalNorm [[3, 0], [4, 0]] := by
  have htot : clipTotalNorm params = Real.sqrt (gradNormSq (params.getLast h)) := by
    rw [clipTotalNorm, clipLoopParamNorm_eq_getLast params h, zero_add]
  refine ⟨htot, ?_, ?_⟩
  · rw [clip_gradients]
    simp only [htot]
    refine List.map_congr_left (fun g hg => List.map_congr_left (fun x hx => ?_))
    congr 1
    rcases lt_or_le (max_norm / (Real.sqrt (gradNormSq (params.getLast h)) + 1 / 1000000)) 1
      with hc | hc
    · rw [if_pos hc, min_eq_right hc.le]
    · rw [if_neg (not_lt.mpr hc), min_eq_left hc]
  · have h1 : clipTotalNorm [[3, 0], [4, 0]] = 4 := by
      rw [clipTotalNorm, clipLoopParamNorm_eq_getLast [[3, 0], [4, 0]] (by simp), zero_add]
      have h16 : gradNormSq (([[3, 0], [4, 0]] : List (List ℝ)).getLast (by simp))
          = (16 : ℝ) := by
        show gradNormSq [4, 0] = 16
        rw [gradNormSq]
        norm_num
      rw [h16, sqrt_sixteen]
    have h2 : intendedTotalNorm [[3, 0], [4, 0]] = 5 := by
      rw [intendedTotalNorm]
      have h25 : (([[3, 0], [4, 0]] : List (List ℝ)).map gradNormSq).sum = (25 : ℝ) := by
        simp [gradNormSq]
        norm_num
      rw [h25, sqrt_twentyfive]
    rw [h1, h2]
    norm_num

/-- Witness for C7 at the single parameter `[3, 4]` and clip value one. -/
theorem c7_clip_gradients_last_param_only_witness :
    (0 : ℝ) < 1 ∧ ([[3, 4]] : List (List ℝ)) ≠ [] ∧
      (clip_gradients 1 [[3, 4]]).1 = Real.sqrt (gradNormSq [3, 4]) :=
  ⟨one_pos, by simp,
    (c7_clip_gradients_last_param_only 1 one_pos [[3, 4]] (by simp)).1⟩

/-- C8 counterexample: `XLAStrategy.reduce` does not return non-tensor
inputs unchanged: the numeric input three is converted to a tensor and
reduced, so the claim fails for that strategy implementation. -/
theorem c8_xla_reduce_converts_nontensor :
    (XVal.num 3).isTensor = false ∧
      xlaReduce true 1 [] (XVal.num 3) ReduceOpArg.noneArg = Except.ok ⟨[], [3]⟩ :=
  ⟨rfl, rfl⟩

/-- C8 (amended): `DDPStrategy.reduce` returns every non-tensor input
unchanged (only tensors are synchronized and reduced); `XLAStrategy.reduce`
instead converts non-tensor numeric inputs to tensors and includes them
in the cross-rank reduction. -/
theorem c8_reduce_nontensor_amended :
    (∀ (available : Bool) (ws : Nat) (others : List STensor) (v : XVal) (op : ReduceOpArg),
        v.isTensor = false → ddpReduce available ws others v op = v) ∧
    (∀ (x : ℚ) (ws : Nat) (others : List STensor),
        xlaReduce true ws others (XVal.num x) ReduceOpArg.noneArg =
          Except.ok (sumAcrossRanks ⟨[], [x]⟩ others)) := by
  constructor
  · intro available ws others v op hv
    cases v with
    | tensor t => simp [XVal.isTensor] at hv
    | num x => rfl
    | str s => rfl
    | pyNone => rfl
  · intro x ws others
    rfl

/-- Witness for the amended C8: the string input is passed through by the
DDP reduce, and the numeric input three is summed with the other rank's
tensor by the XLA reduce. -/
theorem c8_reduce_nontensor_amended_witness :
    (XVal.str "abc").isTensor = false ∧
      ddpReduce true 2 [] (XVal.str "abc") (ReduceOpArg.str "mean") = XVal.str "abc" ∧
      xlaReduce true 2 [⟨[], [4]⟩] (XVal.num 3) ReduceOpArg.noneArg =
        Except.ok (sumAcrossRanks ⟨[], [3]⟩ [⟨[], [4]⟩]) :=
  ⟨rfl,
    c8_reduce_nontensor_amended.1 true 2 [] (XVal.str "abc") (ReduceOpArg.str "mean") rfl,
    c8_reduce_nontensor_amended.2 3 2 [⟨[], [4]⟩]⟩

/-- C10: `XLAStrategy.reduce` raises a ValueError for every `ReduceOp`
other than SUM and every string whose lower-case form is not sum, mean
or avg, and the raise does not depend on the other ranks' contributions
(it happens before any communication); for every accepted op it computes
the cross-rank sum (converting non-tensor numeric inputs to tensors
first), divided by the world size exactly when the op is the string
mean or avg case-insensitively. -/
theorem c10_xla_reduce_validation :
    (∀ o : TorchReduceOp, o ≠ TorchReduceOp.SUM →
      ∀ (ws : Nat) (others : List STensor) (t : STensor),
        xlaReduce true ws others (XVal.tensor t) (ReduceOpArg.op o)
          = Except.error xlaReduceOpError) ∧
    (∀ s : String, (["sum", "mean", "avg"].contains (pyLower s)) = false →
      ∀ (ws : Nat) (others : List STensor) (t : STensor),
        xlaReduce true ws others (XVal.tensor t) (ReduceOpArg.str s)
          = Except.error xlaReduceOpError) ∧
    (∀ (ws : Nat) (others : List STensor) (t : STensor),
        xlaReduce true ws others (XVal.tensor t) (ReduceOpArg.op TorchReduceOp.SUM)
          = Except.ok (sumAcrossRanks t others)) ∧
    (∀ (ws : Nat) (others : List STensor) (t : STensor),
        xlaReduce true ws others (XVal.tensor t) ReduceOpArg.noneArg
          = Except.ok (sumAcrossRanks t others)) ∧
    (∀ s : String, pyLower s = "sum" →
      ∀ (ws : Nat) (others : List STensor) (t : STensor),
        xlaReduce true ws others (XVal.tensor t) (ReduceOpArg.str s)
          = Except.ok (sumAcrossRanks t others)) ∧
    (∀ s : String, pyLower s = "mean" ∨ pyLower s = "avg" →
      ∀ (ws : Nat) (others : List STensor) (t : STensor),
        xlaReduce true ws others (XVal.tensor t) (ReduceOpArg.str s)
          = Except.ok ((sumAcrossRanks t others).divNat ws)) ∧
    (∀ (x : ℚ) (ws : Nat) (others : List STensor),
        xlaReduce true ws others (XVal.num x) ReduceOpArg.noneArg
          = Except.ok (sumAcrossRanks ⟨[], [x]⟩ others)) := by
  refine ⟨?_, ?_, fun ws others t => rfl, fun ws others t => rfl, ?_, ?_, fun x ws others => rfl⟩
  · intro o ho ws others t
    have hbne : (o != TorchReduceOp.SUM) = true := bne_iff_ne.mpr ho
    simp [xlaReduce, hbne]
  · intro s hs ws others t
    simp only [xlaReduce]
    rw [hs]
    rfl
  · intro s hs ws others t
    simp only [xlaReduce, hs]
    rfl
  · intro s hs ws others t
    rcases hs with hs | hs <;> (simp only [xlaReduce, hs]; rfl)

/-- Witness for C10: the AVG op and the string max are rejected, the
string MEAN in upper case divides the cross-rank sum of one and four by
the world size two. -/
theorem c10_xla_reduce_validation_witness :
    TorchReduceOp.AVG ≠ TorchReduceOp.SUM ∧
      xlaReduce true 2 [⟨[], [4]⟩] (XVal.tensor ⟨[], [1]⟩) (ReduceOpArg.op TorchReduceOp.AVG)
        = Except.error xlaReduceOpError ∧
      (["sum", "mean", "avg"].contains (pyLower "max")) = false ∧
      xlaReduce true 2 [⟨[], [4]⟩] (XVal.tensor ⟨[], [1]⟩) (ReduceOpArg.str "max")
        = Except.error xlaReduceOpError ∧
      (pyLower "MEAN" = "mean" ∨ pyLower "MEAN" = "avg") ∧
      xlaReduce true 2 [⟨[], [4]⟩] (XVal.tensor ⟨[], [1]⟩) (ReduceOpArg.str "MEAN")
        = Except.ok ((sumAcrossRanks ⟨[], [1]⟩ [⟨[], [4]⟩]).divNat 2) :=
  ⟨by decide,
    c10_xla_reduce_validation.1 TorchReduceOp.AVG (by decide) 2 [⟨[], [4]⟩] ⟨[], [1]⟩,
    by decide,
    c10_xla_reduce_validation.2.1 "max" (by decide) 2 [⟨[], [4]⟩] ⟨[], [1]⟩,
    by decide,
    c10_xla_reduce_validation.2.2.2.2.2.1 "MEAN" (by decide) 2 [⟨[], [4]⟩] ⟨[], [1]⟩⟩
